import Mathlib

/-!
Shallow embedding of `src/animation.py` (barplot-timeseries-animation).

The script renders a bar-chart race from a pandas DataFrame with columns
`Time`, `Location`, `TPopulation1Jan`.  We model the DataFrame as a
`List Row`; a missing (NaN) metric is `none`.  The two animation entry
points `save_animation` (export to `animation.mp4` via ffmpeg) and
`show_animation` (interactive display) each define an inner callback
`animate(frame)` that

  * filters the table to rows with `Time == frame` (exact equality),
  * takes `nlargest(10, "TPopulation1Jan")` (pandas performs a stable
    descending selection of the non-NaN rows, implemented with a stable
    mergesort on the metric, and then pads the result with the NaN rows
    in original order before truncating to n — `SelectNSeries.compute`
    ends with `concat([dropped.iloc[inds], nan_index]).iloc[:findex]`,
    and the slow path sorts with NaN placed last; we model it as a
    stable insertion sort of the valid rows, appended with the NaN rows,
    followed by `take 10`),
  * draws one horizontal bar per row via
    `sns.barplot(..., hue="Location", palette="viridis")` — seaborn
    assigns to the i-th of k hue levels (order of first appearance in the
    data of the frame) the colormap sample at coordinate (i+1)/(k+1), which we
    record as the color of the bar,
  * writes one text label per row with the metric value,
  * sets the title to the hard-coded string `f"Top 10 Populations - {frame}"`.

Only `show_animation.animate` additionally calls `setup_plotstyle` (spine
and tick suppression) and `setup_year` (time annotation); the export
callback does not.  A rendered frame is modelled as a `Frame` record; the
style calls become the `styled` and `yearLabel` fields.

The `__main__` block spawns `save_animation` in a separate process,
runs `show_animation` in the main thread, then joins the process; we
model it as the event trace `mainTrace`.
-/

/-- One row of the input table: `Location`, `Time`, `TPopulation1Jan`.
A `none` metric models a NaN cell. -/
structure Row where
  location : String
  time : Int
  pop : Option ℚ
deriving DecidableEq, Repr

/-- The numeric metric of a row (the ranking only ever compares rows whose
`pop` is present; pandas `nlargest` ranks the non-NaN rows and appends the
NaN rows after them). -/
def Row.metric (r : Row) : ℚ :=
  r.pop.getD 0

/-- Descending comparison on the metric, the order used by
`nlargest(10, "TPopulation1Jan")`: `metricGE a b` holds when the metric of `a`
is at least that of `b`, so a stable sort by it lists greater metrics first. -/
def metricGE (a b : Row) : Prop :=
  b.metric ≤ a.metric

instance : DecidableRel metricGE := fun a b =>
  inferInstanceAs (Decidable (b.metric ≤ a.metric))

instance : IsTotal Row metricGE :=
  ⟨fun a b => le_total b.metric a.metric⟩

instance : IsTrans Row metricGE :=
  ⟨fun _ _ _ h1 h2 => le_trans h2 h1⟩

/-- `df[df["Time"] == t]`: the rows whose time field equals `t` exactly. -/
def matchingRows (df : List Row) (t : Int) : List Row :=
  df.filter (fun r => r.time = t)

/-- `DataFrame.nlargest(n, "TPopulation1Jan")`: sort the non-NaN rows stably
by metric descending (pandas `keep="first"`, a stable mergesort; stable
insertion sort is extensionally the same), append the NaN rows in original
order as end-of-result padding (`nan_index` in the fast path of
`SelectNSeries.compute`; `na_position="last"` in the slow path), and keep
the first `n` of the whole. -/
def nlargestRows (n : Nat) (df : List Row) : List Row :=
  (List.insertionSort metricGE (df.filter (fun r => r.pop.isSome)) ++
    df.filter (fun r => !r.pop.isSome)).take n

/-- The frame-selection step of both `animate` callbacks
(`animation.py` lines 72-73 and 114-115). -/
def selectTopN (df : List Row) (t : Int) (n : Nat) : List Row :=
  nlargestRows n (matchingRows df t)

/-- Order of first appearance of labels, as `pd.unique` computes the hue
levels seaborn uses for `hue="Location"`. -/
def uniqueFirst (l : List String) : List String :=
  l.foldl (fun acc s => if s ∈ acc then acc else acc ++ [s]) []

/-- The hue order seaborn derives from the data of one frame. -/
def hueOrder (rows : List Row) : List String :=
  uniqueFirst (rows.map Row.location)

/-- The colormap coordinate the seaborn call `color_palette("viridis", k)` assigns
to hue level number `i` of `k`: sample `(i+1)/(k+1)` of the colormap
(`mpl_palette` takes `np.linspace(0, 1, k + 2)[1:-1]`).  The coordinate
determines the RGB color of the bar. -/
def paletteCoord (order : List String) (label : String) : ℚ :=
  mkRat (order.indexOf label + 1) (order.length + 1)

/-- One horizontal bar of a frame: label, length (the metric) and color
(viridis colormap coordinate). -/
structure Bar where
  location : String
  length : ℚ
  color : ℚ
deriving DecidableEq, Repr

/-- The bars `sns.barplot` (x and hue keyed on the location column, viridis
palette) draws for the ranked rows of one frame. -/
def drawBars (rows : List Row) : List Bar :=
  rows.map (fun r => ⟨r.location, r.metric, paletteCoord (hueOrder rows) r.location⟩)

/-- One rendered frame.  `styled` records whether `setup_plotstyle` ran on
the axes; `yearLabel` records the `setup_year` text, `valueLabels`
the per-bar `ax.text` value annotations, `title` the `ax.set_title`
argument.  `timeValue` is the frame identifier the callback received. -/
structure Frame where
  timeValue : Int
  styled : Bool
  yearLabel : Option Int
  bars : List Bar
  valueLabels : List (String × ℚ)
  title : String
deriving DecidableEq, Repr

/-- The title string both callbacks set: `f"Top 10 Populations - {frame}"`
(`animation.py` lines 82 and 123).  The prefix is hard-coded. -/
def frameTitle (t : Int) : String :=
  "Top 10 Populations - " ++ toString t

/-- The frame produced by `save_animation.animate` (lines 70-83): clear,
select top 10, draw bars and value labels, set title.  No style call, no
year annotation. -/
def saveFrame (df : List Row) (t : Int) : Frame :=
  let top := selectTopN df t 10
  { timeValue := t
    styled := false
    yearLabel := none
    bars := drawBars top
    valueLabels := top.map (fun r => (r.location, r.metric))
    title := frameTitle t }

/-- The frame produced by `show_animation.animate` (lines 110-124): clear,
`setup_plotstyle`, `setup_year`, then the same selection and drawing. -/
def showFrame (df : List Row) (t : Int) : Frame :=
  let top := selectTopN df t 10
  { timeValue := t
    styled := true
    yearLabel := some t
    bars := drawBars top
    valueLabels := top.map (fun r => (r.location, r.metric))
    title := frameTitle t }

/-- The result of `save_animation`: `FuncAnimation(fig, animate, frames=frames)`
followed by `anim.save("animation.mp4", writer="ffmpeg", fps=5)` — one frame
per entry of `frames`, in order, encoded to the fixed path at 5 fps.  The
function returns only after `anim.save` has written the file. -/
structure ExportRun where
  path : String
  fps : Nat
  frames : List Frame
deriving DecidableEq, Repr

/-- `save_animation(df, frames)` (lines 49-88). -/
def save_animation (df : List Row) (frames : List Int) : ExportRun :=
  { path := "animation.mp4"
    fps := 5
    frames := frames.map (saveFrame df) }

/-- `show_animation(df, frames)` (lines 91-127): the sequence of frames the
interactive loop displays, one per entry of `frames`, in order. -/
def show_animation (df : List Row) (frames : List Int) : List Frame :=
  frames.map (showFrame df)

/-- The color drawn for the bar of `label` in a frame, if the label has a bar. -/
def frameColor (f : Frame) (label : String) : Option ℚ :=
  (f.bars.find? (fun b => b.location == label)).map Bar.color

/-- Events of the `__main__` block (lines 130-141).  `cancelExport` would be
a `p.terminate()`/`p.kill()` call; the script contains none. -/
inductive MainEvent where
  | spawnExport
  | runDisplay
  | joinExport
  | cancelExport
deriving DecidableEq, Repr

/-- The `__main__` block in order: `p.start()` (export in a background
process), `show_animation` in the main thread (returns when the viewer
closes), `p.join()`. -/
def mainTrace : List MainEvent :=
  [.spawnExport, .runDisplay, .joinExport]

/-- Both callbacks stamp the frame with the time value they received. -/
theorem saveFrame_timeValue (df : List Row) (t : Int) : (saveFrame df t).timeValue = t :=
  rfl

theorem showFrame_timeValue (df : List Row) (t : Int) : (showFrame df t).timeValue = t :=
  rfl

/-- Claim C4: in both consumption modes the produced frame sequence has exactly one
frame per supplied time value, in the supplied order, for every table — so in
particular independently of the row order of the table. -/
theorem frames_follow_supplied_order (df : List Row) (frames : List Int) :
    (save_animation df frames).frames.map Frame.timeValue = frames ∧
    (show_animation df frames).map Frame.timeValue = frames := by
  constructor <;>
    simp [save_animation, show_animation, List.map_map, Function.comp_def,
      saveFrame_timeValue, showFrame_timeValue]

/-- Claim C2 counterexample: the frame drawn by the export pipeline differs from the
frame drawn by the display pipeline (already on the empty table at time 0),
because only the display path applies `setup_plotstyle` and `setup_year`. -/
theorem export_display_frames_differ : saveFrame [] 0 ≠ showFrame [] 0 := by
  decide

/-- Claim C2 (amended): the two pipelines agree on bars, value labels, title and time
value; they differ exactly in the Style Policy — the export frame is unstyled
and carries no time annotation, the display frame is styled and annotated. -/
theorem export_display_agree_modulo_style (df : List Row) (t : Int) :
    (saveFrame df t).bars = (showFrame df t).bars ∧
    (saveFrame df t).valueLabels = (showFrame df t).valueLabels ∧
    (saveFrame df t).title = (showFrame df t).title ∧
    (saveFrame df t).timeValue = (showFrame df t).timeValue ∧
    (saveFrame df t).styled = false ∧ (showFrame df t).styled = true ∧
    (saveFrame df t).yearLabel = none ∧ (showFrame df t).yearLabel = some t :=
  ⟨rfl, rfl, rfl, rfl, rfl, rfl, rfl, rfl⟩

/-- Claim C5 counterexample: with the default empty title prefix of the spec the claimed
title would be `" - 2000"`, but the title of the rendered frame is the hard-coded
`"Top 10 Populations - 2000"`. -/
theorem title_default_prefix_cex :
    (saveFrame [] 2000).title ≠ "" ++ " - " ++ toString (2000 : Int) := by
  decide

/-- Claim C5 (amended): every frame rendered by either path carries the title
`"Top 10 Populations - {timeValue}"`; the prefix is hard-coded, not
caller-supplied. -/
theorem frame_title_hardcoded (df : List Row) (frames : List Int) (f : Frame)
    (h : f ∈ (save_animation df frames).frames ∨ f ∈ show_animation df frames) :
    f.title = "Top 10 Populations - " ++ toString f.timeValue := by
  rcases h with h | h <;>
  · simp only [save_animation, show_animation, List.mem_map] at h
    obtain ⟨t, _, rfl⟩ := h
    rfl

theorem frame_title_hardcoded_witness :
    (saveFrame [] 2000 ∈ (save_animation [] [2000]).frames ∨
      saveFrame [] 2000 ∈ show_animation [] [2000]) ∧
    (saveFrame [] 2000).title =
      "Top 10 Populations - " ++ toString (saveFrame [] 2000).timeValue :=
  ⟨Or.inl (by decide), frame_title_hardcoded [] [2000] (saveFrame [] 2000) (Or.inl (by decide))⟩

/-- Claim C6 counterexample: the export has no path parameter; it writes
`"animation.mp4"` and in particular never a caller-chosen path such as
`"out.mp4"`. -/
theorem export_path_not_caller_chosen :
    (save_animation [] []).path = "animation.mp4" ∧
    (save_animation [] []).path ≠ "out.mp4" := by
  decide

/-- Claim C6 (amended): for every invocation the export writes the video at the fixed
path `"animation.mp4"` at 5 fps (the caller cannot choose the path), encoding
one frame per supplied time value in order; `anim.save` blocks, so
`save_animation` returns only after the file is written. -/
theorem export_writes_fixed_path (df : List Row) (frames : List Int) :
    (save_animation df frames).path = "animation.mp4" ∧
    (save_animation df frames).fps = 5 ∧
    (save_animation df frames).frames.map Frame.timeValue = frames := by
  refine ⟨rfl, rfl, ?_⟩
  simp [save_animation, List.map_map, Function.comp_def, saveFrame_timeValue]

/-- Claim C9: in the `__main__` trace the export is spawned before the interactive
display runs, the join on the export happens after the display has returned
(i.e. after the interactive view closed), the join is always reached, and no
cancellation of the export ever occurs. -/
theorem main_join_after_display_no_cancel :
    mainTrace.indexOf MainEvent.spawnExport < mainTrace.indexOf MainEvent.runDisplay ∧
    mainTrace.indexOf MainEvent.runDisplay < mainTrace.indexOf MainEvent.joinExport ∧
    MainEvent.joinExport ∈ mainTrace ∧
    MainEvent.cancelExport ∉ mainTrace := by
  decide

/-- Claim C7: when no row matches the time value, selection returns the empty
sequence and both renderers (total functions — no exception path) produce an
empty chart carrying only the title. -/
theorem empty_time_value_renders_empty (df : List Row) (t : Int)
    (h : matchingRows df t = []) :
    selectTopN df t 10 = [] ∧
    (saveFrame df t).bars = [] ∧ (saveFrame df t).valueLabels = [] ∧
    (showFrame df t).bars = [] ∧ (showFrame df t).valueLabels = [] ∧
    (saveFrame df t).title = frameTitle t ∧ (showFrame df t).title = frameTitle t := by
  have hsel : selectTopN df t 10 = [] := by
    simp [selectTopN, nlargestRows, h]
  exact ⟨hsel, by simp [saveFrame, drawBars, hsel], by simp [saveFrame, hsel],
    by simp [showFrame, drawBars, hsel], by simp [showFrame, hsel], rfl, rfl⟩

/-- The selection splits into the ranked valid rows followed by NaN padding,
truncated to 10 in total. -/
theorem selectTopN_eq_valid_append_nan (df : List Row) (t : Int) :
    selectTopN df t 10 =
      (List.insertionSort metricGE
        ((matchingRows df t).filter (fun r => r.pop.isSome))).take 10 ++
      ((matchingRows df t).filter (fun r => !r.pop.isSome)).take
        (10 - ((matchingRows df t).filter (fun r => r.pop.isSome)).length) := by
  rw [selectTopN, nlargestRows, List.take_append_eq_append_take,
    List.length_insertionSort]

/-- A table with one NaN-metric row and one valid row at time 2000. -/
def nanTable : List Row :=
  [⟨"A", 2000, none⟩, ⟨"B", 2000, some 1⟩]

/-- Claim C10 counterexample: with only one valid row at time 2000, pandas
`nlargest` pads the result with the NaN row, so the rendered frame contains a
record with a missing metric — the claim fails in exactly its fewer-than-N
case. -/
theorem nan_included_cex :
    selectTopN nanTable 2000 10 =
      [⟨"B", 2000, some 1⟩, ⟨"A", 2000, none⟩] ∧
    ¬∀ r ∈ selectTopN nanTable 2000 10, r.pop.isSome := by
  decide

/-- Claim C10 (amended): a NaN-metric row reaches a frame only as
end-of-result padding: it appears only when fewer than 10 valid rows match,
in which case every valid matching row is also selected, and the frame is the
ranked valid rows followed by the NaN rows — never a NaN row in place of a
valid one or ahead of one. -/
theorem nan_only_padding (df : List Row) (t : Int) (r : Row)
    (h : r ∈ selectTopN df t 10) (hr : r.pop = none) :
    ((matchingRows df t).filter (fun x => x.pop.isSome)).length < 10 ∧
    (∀ x ∈ matchingRows df t, x.pop.isSome → x ∈ selectTopN df t 10) ∧
    ∃ valid nanPad : List Row, selectTopN df t 10 = valid ++ nanPad ∧
      (∀ x ∈ valid, x.pop.isSome) ∧ (∀ x ∈ nanPad, x.pop = none) := by
  have hsel := selectTopN_eq_valid_append_nan df t
  have hVlt : ((matchingRows df t).filter (fun x => x.pop.isSome)).length < 10 := by
    by_contra hge
    push_neg at hge
    have hzero : 10 - ((matchingRows df t).filter (fun x => x.pop.isSome)).length = 0 :=
      Nat.sub_eq_zero_of_le hge
    rw [hsel, hzero, List.take_zero, List.append_nil] at h
    have hx : r ∈ (matchingRows df t).filter (fun x => x.pop.isSome) := by
      have hmem := (List.take_sublist 10 _).subset h
      rwa [List.mem_insertionSort] at hmem
    have hr2 := (List.mem_filter.mp hx).2
    rw [hr] at hr2
    simp at hr2
  refine ⟨hVlt, ?_, ?_⟩
  · intro x hx hxs
    have hxV : x ∈ (matchingRows df t).filter (fun y => y.pop.isSome) :=
      List.mem_filter.mpr ⟨hx, hxs⟩
    rw [hsel]
    apply List.mem_append_left
    have hlen : (List.insertionSort metricGE
        ((matchingRows df t).filter (fun y => y.pop.isSome))).length ≤ 10 := by
      rw [List.length_insertionSort]
      omega
    rw [List.take_of_length_le hlen, List.mem_insertionSort]
    exact hxV
  · refine ⟨_, _, hsel, ?_, ?_⟩
    · intro x hx
      have hxV : x ∈ (matchingRows df t).filter (fun y => y.pop.isSome) := by
        have hmem := (List.take_sublist 10 _).subset hx
        rwa [List.mem_insertionSort] at hmem
      exact (List.mem_filter.mp hxV).2
    · intro x hx
      have hxN : x ∈ (matchingRows df t).filter (fun y => !y.pop.isSome) :=
        (List.take_sublist _ _).subset hx
      have hb := (List.mem_filter.mp hxN).2
      simpa using hb

theorem nan_only_padding_witness :
    ((⟨"A", 2000, none⟩ : Row) ∈ selectTopN nanTable 2000 10 ∧
      (Row.pop ⟨"A", 2000, none⟩) = none) ∧
    (((matchingRows nanTable 2000).filter (fun x => x.pop.isSome)).length < 10 ∧
      (∀ x ∈ matchingRows nanTable 2000, x.pop.isSome →
        x ∈ selectTopN nanTable 2000 10) ∧
      ∃ valid nanPad : List Row, selectTopN nanTable 2000 10 = valid ++ nanPad ∧
        (∀ x ∈ valid, x.pop.isSome) ∧ (∀ x ∈ nanPad, x.pop = none)) :=
  ⟨⟨by decide, rfl⟩, nan_only_padding nanTable 2000 ⟨"A", 2000, none⟩ (by decide) rfl⟩

/-- Claim C1: on a table whose matching rows all carry a present metric (the
data-model invariant of the spec — the NaN case is claim C10), `selectTopN` with n = 10
returns at most 10 rows, sorted descending by metric, drawn from the rows
whose time equals `t` (multiset inclusion), all of them when at most 10 match,
and any matching row left out has metric ≤ the metric of every returned row. -/
theorem selectTopN_spec (df : List Row) (t : Int)
    (hvalid : ∀ r ∈ matchingRows df t, r.pop.isSome) :
    (selectTopN df t 10).length ≤ 10 ∧
    List.Sorted metricGE (selectTopN df t 10) ∧
    (∀ r : Row, (selectTopN df t 10).count r ≤ (matchingRows df t).count r) ∧
    ((matchingRows df t).length ≤ 10 →
      (selectTopN df t 10).Perm (matchingRows df t)) ∧
    (∀ x ∈ matchingRows df t,
      (selectTopN df t 10).count x < (matchingRows df t).count x →
      ∀ y ∈ selectTopN df t 10, x.metric ≤ y.metric) := by
  have hfil : (matchingRows df t).filter (fun r => r.pop.isSome) = matchingRows df t :=
    List.filter_eq_self.mpr (fun a ha => hvalid a ha)
  have hnone : (matchingRows df t).filter (fun r => !r.pop.isSome) = [] := by
    rw [List.filter_eq_nil_iff]
    intro a ha
    simp [hvalid a ha]
  have hsel : selectTopN df t 10 =
      (List.insertionSort metricGE (matchingRows df t)).take 10 := by
    rw [selectTopN, nlargestRows, hfil, hnone, List.append_nil]
  have hperm : (List.insertionSort metricGE (matchingRows df t)).Perm (matchingRows df t) :=
    List.perm_insertionSort metricGE (matchingRows df t)
  have hsorted : List.Sorted metricGE (List.insertionSort metricGE (matchingRows df t)) :=
    List.sorted_insertionSort metricGE (matchingRows df t)
  rw [hsel]
  refine ⟨?_, ?_, ?_, ?_, ?_⟩
  · rw [List.length_take]
    exact min_le_left _ _
  · exact hsorted.sublist (List.take_sublist 10 _)
  · intro r
    exact le_trans ((List.take_sublist 10 _).count_le r) (le_of_eq (hperm.count_eq r))
  · intro hlen
    rw [List.take_of_length_le (le_trans (le_of_eq hperm.length_eq) hlen)]
    exact hperm
  · intro x _ hcount y hy
    have hsplit : (List.insertionSort metricGE (matchingRows df t)).count x =
        ((List.insertionSort metricGE (matchingRows df t)).take 10).count x +
        ((List.insertionSort metricGE (matchingRows df t)).drop 10).count x := by
      conv_lhs => rw [← List.take_append_drop 10 (List.insertionSort metricGE (matchingRows df t))]
      rw [List.count_append]
    have hx : x ∈ (List.insertionSort metricGE (matchingRows df t)).drop 10 := by
      apply List.count_pos_iff.mp
      have := hperm.count_eq x
      omega
    exact hsorted.rel_of_mem_take_of_mem_drop hy hx

/-- A table with four entities at time 2000 (the worked example of the spec). -/
def demoTable : List Row :=
  [⟨"A", 2000, some 100⟩, ⟨"B", 2000, some 90⟩, ⟨"C", 2000, some 80⟩,
   ⟨"D", 2000, some 70⟩, ⟨"E", 1999, some 500⟩]

theorem selectTopN_spec_witness :
    (∀ r ∈ matchingRows demoTable 2000, r.pop.isSome) ∧
    ((selectTopN demoTable 2000 10).length ≤ 10 ∧
      List.Sorted metricGE (selectTopN demoTable 2000 10) ∧
      (∀ r : Row, (selectTopN demoTable 2000 10).count r ≤
        (matchingRows demoTable 2000).count r) ∧
      ((matchingRows demoTable 2000).length ≤ 10 →
        (selectTopN demoTable 2000 10).Perm (matchingRows demoTable 2000)) ∧
      (∀ x ∈ matchingRows demoTable 2000,
        (selectTopN demoTable 2000 10).count x < (matchingRows demoTable 2000).count x →
        ∀ y ∈ selectTopN demoTable 2000 10, x.metric ≤ y.metric)) :=
  ⟨by decide, selectTopN_spec demoTable 2000 (by decide)⟩

/-- Inserting a row into a list moves it past strictly greater metrics only,
so the sublist of rows whose metric value is a fixed `v` gains `a` at the
front when `a` carries `v` and is otherwise unchanged. -/
theorem filter_pop_orderedInsert (v : ℚ) (a : Row) (l : List Row) :
    (List.orderedInsert metricGE a l).filter (fun r => r.pop = some v) =
      if a.pop = some v then a :: l.filter (fun r => r.pop = some v)
      else l.filter (fun r => r.pop = some v) := by
  induction l with
  | nil => simp [List.orderedInsert, List.filter_cons]
  | cons b l ih =>
    rw [List.orderedInsert]
    by_cases hab : metricGE a b
    · rw [if_pos hab, List.filter_cons]
      simp only [decide_eq_true_eq]
    · rw [if_neg hab, List.filter_cons, ih]
      by_cases hbv : b.pop = some v
      · have hav : ¬a.pop = some v := by
          intro hv
          apply hab
          have h1 : b.metric = v := by simp [Row.metric, hbv]
          have h2 : a.metric = v := by simp [Row.metric, hv]
          exact le_of_eq (h1.trans h2.symm)
        simp [List.filter_cons, hbv, hav]
      · by_cases hav : a.pop = some v
        · simp [List.filter_cons, hbv, hav]
        · simp [List.filter_cons, hbv, hav]

/-- The stable insertion sort keeps rows of equal metric value in input
order. -/
theorem filter_pop_insertionSort (v : ℚ) (l : List Row) :
    (List.insertionSort metricGE l).filter (fun r => r.pop = some v) =
      l.filter (fun r => r.pop = some v) := by
  induction l with
  | nil => rfl
  | cons a l ih =>
    rw [List.insertionSort, filter_pop_orderedInsert, ih]
    by_cases hav : a.pop = some v
    · simp [List.filter_cons, hav]
    · simp [List.filter_cons, hav]

/-- Claim C8: frame selection is a pure function (rerunning it gives the same
ordered result), and for every metric value `v` the selected rows carrying
`v` form an order-preserving subsequence of the valid matching rows in
original table order — the tie-break is stable.  Equal metric values are read
over present metrics (`pop = some v`): in the program a NaN cell compares
equal to nothing (even to itself), so ties never involve the NaN padding. -/
theorem selectTopN_deterministic_stable (df : List Row) (t : Int) :
    selectTopN df t 10 = selectTopN df t 10 ∧
    ∀ v : ℚ, List.Sublist
      ((selectTopN df t 10).filter (fun r => r.pop = some v))
      (((matchingRows df t).filter (fun r => r.pop.isSome)).filter
        (fun r => r.pop = some v)) := by
  refine ⟨rfl, fun v => ?_⟩
  have h1 : List.Sublist
      ((selectTopN df t 10).filter (fun r => r.pop = some v))
      ((List.insertionSort metricGE
          ((matchingRows df t).filter (fun r => r.pop.isSome)) ++
        (matchingRows df t).filter (fun r => !r.pop.isSome)).filter
          (fun r => r.pop = some v)) := by
    rw [selectTopN, nlargestRows]
    exact List.Sublist.filter _ (List.take_sublist 10 _)
  have h2 : ((matchingRows df t).filter (fun r => !r.pop.isSome)).filter
      (fun r => r.pop = some v) = [] := by
    rw [List.filter_eq_nil_iff]
    intro a ha
    have hnone : a.pop = none := by
      have := (List.mem_filter.mp ha).2
      simpa using this
    simp [hnone]
  rwa [List.filter_append, filter_pop_insertionSort, h2, List.append_nil] at h1

/-- The per-frame color assignment of seaborn, factored through the label
sequence of the frame: find the label among the bar labels of the frame and take the viridis
coordinate of its hue level. -/
def colorLookup (locs : List String) (label : String) : Option ℚ :=
  (locs.find? (fun s => s == label)).map (fun s => paletteCoord (uniqueFirst locs) s)

/-- The color drawn for a label in an export frame is a function of the
label sequence of the frame alone. -/
theorem frameColor_saveFrame_eq (df : List Row) (t : Int) (label : String) :
    frameColor (saveFrame df t) label =
      colorLookup ((selectTopN df t 10).map Row.location) label := by
  simp only [frameColor, saveFrame, drawBars, colorLookup, hueOrder,
    List.find?_map, Option.map_map, Function.comp_def]

/-- A table where entity A ranks first at time 0 and second at time 1 while B
does the opposite. -/
def swapTable : List Row :=
  [⟨"A", 0, some 2⟩, ⟨"B", 0, some 1⟩, ⟨"B", 1, some 2⟩, ⟨"A", 1, some 1⟩]

/-- Claim C3 counterexample: in the single run `save_animation swapTable [0, 1]`,
entity "A" is drawn with viridis coordinate 1/3 in the time-0 frame (hue
level 0 of 2) but 2/3 in the time-1 frame (hue level 1 of 2): the bar color
follows the position of the row in the frame, not the entity label. -/
theorem color_not_function_of_label_cex :
    saveFrame swapTable 0 ∈ (save_animation swapTable [0, 1]).frames ∧
    saveFrame swapTable 1 ∈ (save_animation swapTable [0, 1]).frames ∧
    frameColor (saveFrame swapTable 0) "A" ≠ frameColor (saveFrame swapTable 1) "A" := by
  decide

/-- Claim C3 (amended): the bar color is a deterministic function of the frame
label sequence (the labels of the selected rows, in rank order) and the label
— so two frames whose ranked label sequences coincide color every entity
identically, but a rank change can recolor an entity. -/
theorem color_function_of_label_sequence (df df' : List Row) (t t' : Int)
    (h : (selectTopN df t 10).map Row.location = (selectTopN df' t' 10).map Row.location)
    (label : String) :
    frameColor (saveFrame df t) label = frameColor (saveFrame df' t') label := by
  rw [frameColor_saveFrame_eq, frameColor_saveFrame_eq, h]

theorem color_function_of_label_sequence_witness :
    (selectTopN [⟨"A", 0, some 5⟩, ⟨"B", 0, some 3⟩] 0 10).map Row.location =
      (selectTopN [⟨"A", 7, some 50⟩, ⟨"B", 7, some 1⟩] 7 10).map Row.location ∧
    frameColor (saveFrame [⟨"A", 0, some 5⟩, ⟨"B", 0, some 3⟩] 0) "A" =
      frameColor (saveFrame [⟨"A", 7, some 50⟩, ⟨"B", 7, some 1⟩] 7) "A" :=
  ⟨by decide,
    color_function_of_label_sequence [⟨"A", 0, some 5⟩, ⟨"B", 0, some 3⟩]
      [⟨"A", 7, some 50⟩, ⟨"B", 7, some 1⟩] 0 7 (by decide) "A"⟩

theorem empty_time_value_renders_empty_witness :
    matchingRows [⟨"A", 1999, some 1⟩] 2000 = [] ∧
    (selectTopN [⟨"A", 1999, some 1⟩] 2000 10 = [] ∧
      (saveFrame [⟨"A", 1999, some 1⟩] 2000).bars = [] ∧
      (saveFrame [⟨"A", 1999, some 1⟩] 2000).valueLabels = [] ∧
      (showFrame [⟨"A", 1999, some 1⟩] 2000).bars = [] ∧
      (showFrame [⟨"A", 1999, some 1⟩] 2000).valueLabels = [] ∧
      (saveFrame [⟨"A", 1999, some 1⟩] 2000).title = frameTitle 2000 ∧
      (showFrame [⟨"A", 1999, some 1⟩] 2000).title = frameTitle 2000) :=
  ⟨by decide, empty_time_value_renders_empty [⟨"A", 1999, some 1⟩] 2000 (by decide)⟩
